import Mathlib

/-!
# CU-Workspace-Analyzer: Hierarchical Metrics Aggregator, shallow embedding

This file embeds the metrics-aggregation core of `src/streamlit.py`
(`fetch_workspaces`, `fetch_workspace_details`, `fetch_space_details`,
`fetch_folder_details`, `fetch_list_details`, and the inline task
classification loop) as executable Lean definitions, and proves or refutes
the specification claims about it.

Modelling conventions:
* JSON values are modelled by `JVal`; JSON numbers are modelled as integers
  (the fields the code reads numerically are epoch-millisecond due dates).
* Python dictionary / attribute semantics are modelled by `pyGetD`
  (`d.get(k, default)`), `pyIndex` (`d[k]`), `pyLen` (`len`), `pyIter`
  (`for x in v`), `pyInt` (`int(v)`), `pyLower` (`v.lower()`) and
  `JVal.truthy`; each returns `Except String _`, with `.error` standing for
  a raised Python exception.
* A network request made with `requests.get(...).json()` either yields a
  parsed JSON body or raises (connection error / JSON decode error); the
  detail fetchers never call `raise_for_status`, so the HTTP status code is
  unobservable to them and the remote API is modelled as a function from
  requests to `Except String JVal` (`World.req`).  `World.now` models
  `int(time.time() * 1000)`.
* `fetch_workspaces` calls `raise_for_status`, so for it responses carry a
  status code, and the remote is modelled as a stream of responses consumed
  one per issued request (allowing retry behaviour to be observed).
* Thread-pool fan-out (`executor.submit` + `as_completed` + `future.result`)
  is modelled by eager evaluation of the submitted child ids followed by
  `collectResults` over the children in list order; `future.result`
  re-raising a child exception is the `Except` bind.  Aggregation order is
  justified by the order-independence lemmas proved below.
-/

/-- A JSON value as produced by `response.json()`.  Numbers are modelled as
integers (see the file header). -/
inductive JVal where
  | null : JVal
  | bool (b : Bool) : JVal
  | num (n : Int) : JVal
  | str (s : String) : JVal
  | arr (xs : List JVal) : JVal
  | obj (kvs : List (String × JVal)) : JVal
deriving Repr

mutual

/-- Decidable equality on JSON values (written by hand: the derive handler
does not support this nested inductive). -/
def JVal.decEq : (a b : JVal) → Decidable (a = b)
  | .null, .null => isTrue rfl
  | .null, .bool _ => isFalse nofun
  | .null, .num _ => isFalse nofun
  | .null, .str _ => isFalse nofun
  | .null, .arr _ => isFalse nofun
  | .null, .obj _ => isFalse nofun
  | .bool _, .null => isFalse nofun
  | .bool a, .bool b =>
    if h : a = b then isTrue (by rw [h]) else
      isFalse (by intro hh; injection hh; contradiction)
  | .bool _, .num _ => isFalse nofun
  | .bool _, .str _ => isFalse nofun
  | .bool _, .arr _ => isFalse nofun
  | .bool _, .obj _ => isFalse nofun
  | .num _, .null => isFalse nofun
  | .num _, .bool _ => isFalse nofun
  | .num a, .num b =>
    if h : a = b then isTrue (by rw [h]) else
      isFalse (by intro hh; injection hh; contradiction)
  | .num _, .str _ => isFalse nofun
  | .num _, .arr _ => isFalse nofun
  | .num _, .obj _ => isFalse nofun
  | .str _, .null => isFalse nofun
  | .str _, .bool _ => isFalse nofun
  | .str _, .num _ => isFalse nofun
  | .str a, .str b =>
    if h : a = b then isTrue (by rw [h]) else
      isFalse (by intro hh; injection hh; contradiction)
  | .str _, .arr _ => isFalse nofun
  | .str _, .obj _ => isFalse nofun
  | .arr _, .null => isFalse nofun
  | .arr _, .bool _ => isFalse nofun
  | .arr _, .num _ => isFalse nofun
  | .arr _, .str _ => isFalse nofun
  | .arr xs, .arr ys =>
    match JVal.decEqList xs ys with
    | isTrue h => isTrue (by rw [h])
    | isFalse h => isFalse (by intro hh; injection hh; contradiction)
  | .arr _, .obj _ => isFalse nofun
  | .obj _, .null => isFalse nofun
  | .obj _, .bool _ => isFalse nofun
  | .obj _, .num _ => isFalse nofun
  | .obj _, .str _ => isFalse nofun
  | .obj _, .arr _ => isFalse nofun
  | .obj xs, .obj ys =>
    match JVal.decEqKV xs ys with
    | isTrue h => isTrue (by rw [h])
    | isFalse h => isFalse (by intro hh; injection hh; contradiction)

/-- Decidable equality on lists of JSON values. -/
def JVal.decEqList : (xs ys : List JVal) → Decidable (xs = ys)
  | [], [] => isTrue rfl
  | [], _ :: _ => isFalse nofun
  | _ :: _, [] => isFalse nofun
  | x :: xs, y :: ys =>
    match JVal.decEq x y, JVal.decEqList xs ys with
    | isTrue h1, isTrue h2 => isTrue (by rw [h1, h2])
    | isFalse h1, _ =>
      isFalse (by intro hh; injection hh; contradiction)
    | _, isFalse h2 =>
      isFalse (by intro hh; injection hh; contradiction)

/-- Decidable equality on JSON object field lists. -/
def JVal.decEqKV : (xs ys : List (String × JVal)) → Decidable (xs = ys)
  | [], [] => isTrue rfl
  | [], _ :: _ => isFalse nofun
  | _ :: _, [] => isFalse nofun
  | (k, x) :: xs, (l, y) :: ys =>
    if hk : k = l then
      match JVal.decEq x y, JVal.decEqKV xs ys with
      | isTrue h1, isTrue h2 => isTrue (by rw [hk, h1, h2])
      | isFalse h1, _ =>
        isFalse (by
          intro hh; injection hh with hp hs
          exact h1 (congrArg Prod.snd hp))
      | _, isFalse h2 =>
        isFalse (by intro hh; injection hh; contradiction)
    else
      isFalse (by
        intro hh; injection hh with hp hs
        exact hk (congrArg Prod.fst hp))

end

instance : DecidableEq JVal := JVal.decEq

instance {ε α : Type} [DecidableEq ε] [DecidableEq α] :
    DecidableEq (Except ε α)
  | .ok a, .ok b =>
    if h : a = b then isTrue (by rw [h]) else
      isFalse (by intro hh; injection hh; contradiction)
  | .ok _, .error _ => isFalse nofun
  | .error _, .ok _ => isFalse nofun
  | .error e, .error f =>
    if h : e = f then isTrue (by rw [h]) else
      isFalse (by intro hh; injection hh; contradiction)

namespace JVal

/-- Python truthiness of a JSON value (`bool(v)`). -/
def truthy : JVal → Bool
  | .null => false
  | .bool b => b
  | .num n => n != 0
  | .str s => s ≠ ""
  | .arr xs => !xs.isEmpty
  | .obj kvs => !kvs.isEmpty

/-- Whether the value is a JSON object (a Python `dict`). -/
def isObj : JVal → Bool
  | .obj _ => true
  | _ => false

end JVal

/-- First-match lookup in an object field list (Python dicts have unique
keys; the embedding takes the first binding). -/
def jlookup (kvs : List (String × JVal)) (k : String) : Option JVal :=
  match kvs with
  | [] => none
  | (k', v) :: rest => if k' = k then some v else jlookup rest k

/-- Python `d.get(k, default)`: returns the stored value when the key is present
(even when that value is `null`), the default otherwise; raises
`AttributeError` when the receiver is not a dict. -/
def pyGetD (v : JVal) (k : String) (dflt : JVal) : Except String JVal :=
  match v with
  | .obj kvs =>
    match jlookup kvs k with
    | some x => .ok x
    | none => .ok dflt
  | _ => .error ("AttributeError: get on " ++ k)

/-- Python `d[k]`: raises `KeyError` when the key is absent, `TypeError` when the
receiver is not a dict. -/
def pyIndex (v : JVal) (k : String) : Except String JVal :=
  match v with
  | .obj kvs =>
    match jlookup kvs k with
    | some x => .ok x
    | none => .error ("KeyError: " ++ k)
  | _ => .error ("TypeError: subscript " ++ k)

/-- Python `len(v)`: defined for strings, arrays and dicts; raises otherwise. -/
def pyLen (v : JVal) : Except String Nat :=
  match v with
  | .str s => .ok s.length
  | .arr xs => .ok xs.length
  | .obj kvs => .ok kvs.length
  | _ => .error "TypeError: len"

/-- Python `for x in v`: arrays yield their elements, strings their characters
(as one-character strings), dicts their keys; other values raise. -/
def pyIter (v : JVal) : Except String (List JVal) :=
  match v with
  | .arr xs => .ok xs
  | .str s => .ok (s.data.map (fun c => JVal.str (String.singleton c)))
  | .obj kvs => .ok (kvs.map (fun kv => JVal.str kv.1))
  | _ => .error "TypeError: not iterable"

/-- ASCII lower-casing of a string, written over the character list so that
it reduces inside the kernel (Python `str.lower()` is Unicode-aware, but
every status / priority value the code compares against is ASCII). -/
def strLower (s : String) : String :=
  ⟨s.data.map Char.toLower⟩

/-- Accumulate decimal digits; `none` on a non-digit character. -/
def parseNatDigits : List Char → Nat → Option Nat
  | [], acc => some acc
  | c :: rest, acc =>
    if c.isDigit then parseNatDigits rest (acc * 10 + (c.toNat - 48))
    else none

/-- Python `int(s)` on a string: optional surrounding whitespace, optional
sign, one or more decimal digits. -/
def pyIntOfString (s : String) : Option Int :=
  let cs := ((s.data.dropWhile Char.isWhitespace).reverse.dropWhile
    Char.isWhitespace).reverse
  match cs with
  | [] => none
  | '-' :: rest =>
    if rest.isEmpty then none
    else (parseNatDigits rest 0).map (fun n => -(n : Int))
  | '+' :: rest =>
    if rest.isEmpty then none
    else (parseNatDigits rest 0).map (fun n => (n : Int))
  | rest => (parseNatDigits rest 0).map (fun n => (n : Int))

/-- Python `int(v)`: integers pass through, booleans become 0/1, numeric strings
parse; everything else raises. -/
def pyInt (v : JVal) : Except String Int :=
  match v with
  | .num n => .ok n
  | .bool b => .ok (if b then 1 else 0)
  | .str s =>
    match pyIntOfString s with
    | some n => .ok n
    | none => .error ("ValueError: int of " ++ s)
  | _ => .error "TypeError: int"

/-- Python `v.lower()`: only strings have the method. -/
def pyLower (v : JVal) : Except String String :=
  match v with
  | .str s => .ok (strLower s)
  | _ => .error "AttributeError: lower"

/-- Python `str(v)` as used by f-string interpolation of child ids into URLs.
Arrays and objects are given a placeholder rendering (no claim depends on
it; ClickUp ids are strings). -/
def pyStr : JVal → String
  | .null => "None"
  | .bool b => if b then "True" else "False"
  | .num n => toString n
  | .str s => s
  | .arr _ => "<list>"
  | .obj _ => "<dict>"

/-- Python `x in [a, b, ...]`: equality test against each element. -/
def pyIn (v : JVal) (l : List JVal) : Bool :=
  l.any (fun w => v == w)

/-- Sequentially run `f` on every element, stopping at the first raised
exception (models gathering `future.result()` for every submitted child:
the first re-raised exception propagates). -/
def collectResults {α β : Type} (f : α → Except String β) :
    List α → Except String (List β)
  | [] => .ok []
  | x :: xs => do
    let b ← f x
    let bs ← collectResults f xs
    .ok (b :: bs)

/-! ## Task classification (the loop body of `fetch_list_details`, lines 238-251) -/

/-- The five per-task facts computed by the classification loop. -/
structure TaskFlags where
  completed : Bool
  overdue : Bool
  highPriority : Bool
  unassigned : Bool
  customFields : Finset JVal
deriving DecidableEq

/-- Line 251, `cf.get("name", cf.get("id", "Unknown"))`: the inner default
expression is evaluated first. -/
def customFieldName (cf : JVal) : Except String JVal := do
  let dflt ← pyGetD cf "id" (JVal.str "Unknown")
  pyGetD cf "name" dflt

/-- The selection rule of line 251 as the claim words it: the value under
`"name"` when that key is present (even when the stored value is `null`),
otherwise the value under `"id"` when present, otherwise `"Unknown"`. -/
def customFieldNameSpec (kvs : List (String × JVal)) : JVal :=
  match jlookup kvs "name" with
  | some v => v
  | none =>
    match jlookup kvs "id" with
    | some v => v
    | none => JVal.str "Unknown"

/-- Whether a value is hashable in CPython: lists and dicts are not
(`set.add` raises `TypeError` on them); `None`, booleans, numbers and
strings are. -/
def hashableJVal : JVal → Bool
  | .arr _ => false
  | .obj _ => false
  | _ => true

/-- Hashable values on which the `Finset JVal` model of a Python set is
also extensionally faithful: booleans are excluded because CPython hashes
`True` equal to `1` and `False` equal to `0`, which `JVal` equality does
not identify. -/
def setSafe : JVal → Bool
  | .arr _ => false
  | .obj _ => false
  | .bool _ => false
  | _ => true

/-- CPython `set.add(v)` as an effect on the element being added: raises
`TypeError` on an unhashable value, otherwise yields the value. -/
def pySetAdd (v : JVal) : Except String JVal :=
  match v with
  | .arr _ => .error "TypeError: unhashable type: list"
  | .obj _ => .error "TypeError: unhashable type: dict"
  | x => .ok x

/-- One iteration of the loop body at line 251:
`custom_fields_set.add(cf.get("name", cf.get("id", "Unknown")))` — select
the value, then add it to the set, raising on an unhashable value. -/
def customFieldAdd (cf : JVal) : Except String JVal := do
  let v ← customFieldName cf
  pySetAdd v

/-- Line 239: `task.get("status", {}).get("type", "").lower()`. -/
def statusOf (task : JVal) : Except String String := do
  let statusV ← pyGetD task "status" (JVal.obj [])
  let typeV ← pyGetD statusV "type" (JVal.str "")
  pyLower typeV

/-- Line 242: `task.get("due_date") and int(task["due_date"]) <
int(time.time() * 1000)` (the `and` short-circuits on a falsy value, so
`int` only runs on a present, truthy due date). -/
def overdueOf (task : JVal) (now : Int) : Except String Bool := do
  let dueV ← pyGetD task "due_date" JVal.null
  if dueV.truthy then
    let d ← pyInt dueV
    pure (decide (d < now))
  else
    pure false

/-- Lines 250-251: the custom-field gathering loop over
`task.get("custom_fields", [])`. -/
def customFieldsOf (task : JVal) : Except String (List JVal) := do
  let cfV ← pyGetD task "custom_fields" (JVal.arr [])
  let cfs ← pyIter cfV
  collectResults customFieldAdd cfs

/-- The body of the per-task loop in `fetch_list_details` (lines 239-251),
for a single task record.  Effects happen in source order: the status
lookup, the logging f-string (which evaluates `task["id"]` and can raise
`KeyError`), then the due-date, priority, assignee and custom-field
computations.  A raised exception is an `.error`. -/
def classifyTask (task : JVal) (now : Int) : Except String TaskFlags := do
  let status ← statusOf task
  let _ ← pyIndex task "id"
  let completed := ["closed", "done", "completed"].contains status
  let overdue ← overdueOf task now
  let prioV ← pyGetD task "priority" (JVal.str "")
  let highPriority := pyIn prioV [JVal.str "urgent", JVal.str "high"]
  let assigneesV ← pyGetD task "assignees" JVal.null
  let unassigned := !assigneesV.truthy
  let names ← customFieldsOf task
  .ok { completed := completed, overdue := overdue,
        highPriority := highPriority, unassigned := unassigned,
        customFields := names.toFinset }

/-! ## The remote API model for the detail fetchers

The detail fetchers call `requests.get(url, headers=headers).json()` (with
query params for the tasks endpoint) and never inspect the HTTP status, so
a request either yields a parsed JSON body or raises. -/

/-- A request: the URL built by the f-string plus the query params passed
to `requests.get`. -/
structure Req where
  url : String
  params : List (String × String)
deriving DecidableEq, Repr

/-- The remote API and clock seen by one traversal. -/
structure World where
  req : Req → Except String JVal
  now : Int

def spacesReq (team_id : String) : Req :=
  ⟨"https://api.clickup.com/api/v2/team/" ++ team_id ++ "/space", []⟩

def foldersReq (space_id : String) : Req :=
  ⟨"https://api.clickup.com/api/v2/space/" ++ space_id ++ "/folder", []⟩

def listsReq (folder_id : String) : Req :=
  ⟨"https://api.clickup.com/api/v2/folder/" ++ folder_id ++ "/list", []⟩

def tasksReq (list_id : String) : Req :=
  ⟨"https://api.clickup.com/api/v2/list/" ++ list_id ++ "/task",
   [("archived", "false"), ("subtasks", "true")]⟩

/-! ## Per-level result records (the dicts returned by the fetchers) -/

/-- The dict returned by `fetch_list_details`. -/
structure ListResult where
  task_count : Nat
  completed_tasks : Nat
  overdue_tasks : Nat
  high_priority_tasks : Nat
  unassigned_tasks : Nat
  custom_fields_set : Finset JVal
deriving DecidableEq

/-- The dict returned by `fetch_folder_details`. -/
structure FolderResult where
  list_count : Nat
  task_count : Nat
  completed_tasks : Nat
  overdue_tasks : Nat
  high_priority_tasks : Nat
  unassigned_tasks : Nat
  custom_fields_set : Finset JVal
deriving DecidableEq

/-- The dict returned by `fetch_space_details`. -/
structure SpaceResult where
  folder_count : Nat
  list_count : Nat
  task_count : Nat
  completed_tasks : Nat
  overdue_tasks : Nat
  high_priority_tasks : Nat
  unassigned_tasks : Nat
  custom_fields_set : Finset JVal
deriving DecidableEq

/-! ## Reducers: the `+=` / `set.update` accumulation loops.

Each loop initialises every accumulator to zero / the empty set and folds
the child results in arrival (`as_completed`) order; the embedding folds in
list order, which the order-independence lemmas below justify. -/

/-- One step of the per-task accumulation in `fetch_list_details`. -/
def taskStep (acc : ListResult) (f : TaskFlags) : ListResult :=
  { acc with
    completed_tasks := acc.completed_tasks + (if f.completed then 1 else 0),
    overdue_tasks := acc.overdue_tasks + (if f.overdue then 1 else 0),
    high_priority_tasks :=
      acc.high_priority_tasks + (if f.highPriority then 1 else 0),
    unassigned_tasks := acc.unassigned_tasks + (if f.unassigned then 1 else 0),
    custom_fields_set := acc.custom_fields_set ∪ f.customFields }

/-- One step of the per-list accumulation in `fetch_folder_details`. -/
def addListResult (a b : ListResult) : ListResult :=
  { task_count := a.task_count + b.task_count,
    completed_tasks := a.completed_tasks + b.completed_tasks,
    overdue_tasks := a.overdue_tasks + b.overdue_tasks,
    high_priority_tasks := a.high_priority_tasks + b.high_priority_tasks,
    unassigned_tasks := a.unassigned_tasks + b.unassigned_tasks,
    custom_fields_set := a.custom_fields_set ∪ b.custom_fields_set }

def zeroListResult : ListResult := ⟨0, 0, 0, 0, 0, ∅⟩

/-- The accumulation loop of `fetch_folder_details` over its lists. -/
def reduceLists (l : List ListResult) : ListResult :=
  l.foldl addListResult zeroListResult

/-- One step of the per-folder accumulation in `fetch_space_details`. -/
def addFolderResult (a b : FolderResult) : FolderResult :=
  { list_count := a.list_count + b.list_count,
    task_count := a.task_count + b.task_count,
    completed_tasks := a.completed_tasks + b.completed_tasks,
    overdue_tasks := a.overdue_tasks + b.overdue_tasks,
    high_priority_tasks := a.high_priority_tasks + b.high_priority_tasks,
    unassigned_tasks := a.unassigned_tasks + b.unassigned_tasks,
    custom_fields_set := a.custom_fields_set ∪ b.custom_fields_set }

def zeroFolderResult : FolderResult := ⟨0, 0, 0, 0, 0, 0, ∅⟩

/-- The accumulation loop of `fetch_space_details` over its folders. -/
def reduceFolders (l : List FolderResult) : FolderResult :=
  l.foldl addFolderResult zeroFolderResult

/-- One step of the per-space accumulation in `fetch_workspace_details`. -/
def addSpaceResult (a b : SpaceResult) : SpaceResult :=
  { folder_count := a.folder_count + b.folder_count,
    list_count := a.list_count + b.list_count,
    task_count := a.task_count + b.task_count,
    completed_tasks := a.completed_tasks + b.completed_tasks,
    overdue_tasks := a.overdue_tasks + b.overdue_tasks,
    high_priority_tasks := a.high_priority_tasks + b.high_priority_tasks,
    unassigned_tasks := a.unassigned_tasks + b.unassigned_tasks,
    custom_fields_set := a.custom_fields_set ∪ b.custom_fields_set }

def zeroSpaceResult : SpaceResult := ⟨0, 0, 0, 0, 0, 0, 0, ∅⟩

/-- The accumulation loop of `fetch_workspace_details` over its spaces. -/
def reduceSpaces (l : List SpaceResult) : SpaceResult :=
  l.foldl addSpaceResult zeroSpaceResult

/-! ## The level fetchers -/

/-- Embeds `fetch_list_details` (lines 219-262): one unpaginated GET on the tasks
endpoint, `len` of the `tasks` value, then the classification loop. -/
def fetch_list_details (w : World) (api_key list_id : String) :
    Except String ListResult := do
  let resp ← w.req (tasksReq list_id)
  let tasksV ← pyGetD resp "tasks" (JVal.arr [])
  let n ← pyLen tasksV
  let tasks ← pyIter tasksV
  let flags ← collectResults (fun t => classifyTask t w.now) tasks
  .ok (flags.foldl taskStep
    { task_count := n, completed_tasks := 0, overdue_tasks := 0,
      high_priority_tasks := 0, unassigned_tasks := 0,
      custom_fields_set := ∅ })

/-- Embeds `fetch_folder_details` (lines 183-217): one GET on the lists endpoint,
then a thread-pool fan-out of `fetch_list_details` over the list ids
(ids are extracted eagerly by the submit comprehension and interpolated
into URLs by `str`). -/
def fetch_folder_details (w : World) (api_key folder_id : String) :
    Except String FolderResult := do
  let resp ← w.req (listsReq folder_id)
  let listsV ← pyGetD resp "lists" (JVal.arr [])
  let lc ← pyLen listsV
  let lists ← pyIter listsV
  let ids ← collectResults (fun l => pyIndex l "id") lists
  let results ← collectResults
    (fun i => fetch_list_details w api_key (pyStr i)) ids
  let s := reduceLists results
  .ok { list_count := lc, task_count := s.task_count,
        completed_tasks := s.completed_tasks,
        overdue_tasks := s.overdue_tasks,
        high_priority_tasks := s.high_priority_tasks,
        unassigned_tasks := s.unassigned_tasks,
        custom_fields_set := s.custom_fields_set }

/-- Embeds `fetch_space_details` (lines 145-181): one GET on the folders endpoint,
then a thread-pool fan-out of `fetch_folder_details` over the folder ids. -/
def fetch_space_details (w : World) (api_key space_id : String) :
    Except String SpaceResult := do
  let resp ← w.req (foldersReq space_id)
  let foldersV ← pyGetD resp "folders" (JVal.arr [])
  let fc ← pyLen foldersV
  let folders ← pyIter foldersV
  let ids ← collectResults (fun f => pyIndex f "id") folders
  let results ← collectResults
    (fun i => fetch_folder_details w api_key (pyStr i)) ids
  let s := reduceFolders results
  .ok { folder_count := fc, list_count := s.list_count,
        task_count := s.task_count,
        completed_tasks := s.completed_tasks,
        overdue_tasks := s.overdue_tasks,
        high_priority_tasks := s.high_priority_tasks,
        unassigned_tasks := s.unassigned_tasks,
        custom_fields_set := s.custom_fields_set }

/-- Line 128: the completion rate, computed into a local variable (and, in
the source, never used afterwards). -/
def task_completion_rate (completed_tasks task_count : Nat) : ℚ :=
  if task_count > 0 then (completed_tasks : ℚ) / task_count * 100 else 0

/-- The display dict returned by `fetch_workspace_details` (lines 130-139):
an ordered list of (label, value) pairs. -/
abbrev WsDict := List (String × Nat)

/-- The body of the `try:` block of `fetch_workspace_details`
(lines 102-139). -/
def fetch_workspace_details_core (w : World) (api_key team_id : String) :
    Except String WsDict := do
  let resp ← w.req (spacesReq team_id)
  let spacesV ← pyGetD resp "spaces" (JVal.arr [])
  let n ← pyLen spacesV
  let spaces ← pyIter spacesV
  let ids ← collectResults (fun sp => pyIndex sp "id") spaces
  let results ← collectResults
    (fun i => fetch_space_details w api_key (pyStr i)) ids
  let s := reduceSpaces results
  let _rate := task_completion_rate s.completed_tasks s.task_count
  .ok [("🪐 Spaces", n),
       ("📂 Folders", s.folder_count),
       ("🗂️ Lists", s.list_count),
       ("📝 Total Tasks", s.task_count),
       ("⚠️ Overdue Tasks", s.overdue_tasks),
       ("🔥 High Priority Tasks", s.high_priority_tasks),
       ("📝 Unassigned Tasks", s.unassigned_tasks),
       ("🛠️ Custom Fields Used", s.custom_fields_set.card)]

/-- Embeds `fetch_workspace_details` (lines 97-143): any exception raised anywhere
in the traversal is caught by the single top-level `except Exception` and
turned into the error dict `{"error": f"Exception: {e}"}`, modelled as
`.error ("Exception: " ++ e)`. -/
def fetch_workspace_details (w : World) (api_key team_id : String) :
    Except String WsDict :=
  match fetch_workspace_details_core w api_key team_id with
  | .ok d => .ok d
  | .error e => .error ("Exception: " ++ e)

/-! ## The `st.cache_data` wrapper

`fetch_workspaces` and `fetch_workspace_details` are decorated with
`@st.cache_data`, which memoises the function by its arguments: a call
whose arguments were seen before returns the stored value without running
the function (hence without any network request). -/

abbrev WsCache := List ((String × String) × Except String WsDict)

/-- The decorator `@st.cache_data` applied to `fetch_workspace_details` (line 97): on a
cache hit the stored result is returned unchanged (no request is issued,
whatever the current remote state `w` is); on a miss the function runs and
its result is stored. -/
def cached_fetch_workspace_details (cache : WsCache) (w : World)
    (api_key team_id : String) : Except String WsDict × WsCache :=
  match cache.lookup (api_key, team_id) with
  | some r => (r, cache)
  | none =>
    let r := fetch_workspace_details w api_key team_id
    (r, cache ++ [((api_key, team_id), r)])

/-! ## `fetch_workspaces` (lines 73-95)

This function does call `response.raise_for_status()`, so its responses
carry a status code.  To make the number of issued requests observable,
the remote is a stream of responses consumed one per request; an empty
stream models a network-level failure (raised, caught, `None`). -/

/-- One HTTP response: status code and JSON-parse outcome of the body. -/
structure HttpResp where
  status : Nat
  body : Except String JVal
deriving DecidableEq

/-- Python dict-comprehension insertion: a repeated key overwrites the
stored value in place. -/
def dictInsert (d : List (JVal × JVal)) (k v : JVal) : List (JVal × JVal) :=
  match d with
  | [] => [(k, v)]
  | (k', v') :: rest =>
    if k' = k then (k', v) :: rest else (k', v') :: dictInsert rest k v

/-- The comprehension `\x7bteam["id"]: team["name"] for team in teams\x7d`. -/
def buildDict (pairs : List (JVal × JVal)) : List (JVal × JVal) :=
  pairs.foldl (fun d p => dictInsert d p.1 p.2) []

/-- Embeds `fetch_workspaces` (lines 73-95): returns `none` when the key is falsy;
otherwise issues exactly one GET, raises for a status ≥ 400
(`raise_for_status`), and every exception is caught and turned into
`None`.  The returned pair is (result, remaining response stream). -/
def fetch_workspaces (api_key : String) (stream : List HttpResp) :
    Option (List (JVal × JVal)) × List HttpResp :=
  if api_key = "" then (none, stream)
  else
    match stream with
    | [] => (none, [])
    | r :: rest =>
      let out : Except String (List (JVal × JVal)) := do
        if 400 ≤ r.status then
          throw ("HTTPError: " ++ toString r.status)
        let body ← r.body
        let teamsV ← pyGetD body "teams" (JVal.arr [])
        let teams ← pyIter teamsV
        let pairs ← collectResults
          (fun t => do
            let i ← pyIndex t "id"
            let nm ← pyIndex t "name"
            Except.ok (i, nm)) teams
        Except.ok (buildDict pairs)
      (out.toOption, rest)

/-! ## Shared helper lemmas -/

theorem exbind_ok {α β : Type} (a : α) (f : α → Except String β) :
    (Except.ok a : Except String α) >>= f = f a := rfl

theorem exbind_error {α β : Type} (e : String) (f : α → Except String β) :
    (Except.error e : Except String α) >>= f = .error e := rfl

/-- A left fold by a right-commutative step is invariant under permutation
of the folded list. -/
theorem foldl_perm_of_right_comm {α β : Type} (f : β → α → β)
    (hf : ∀ b x y, f (f b x) y = f (f b y) x) :
    ∀ {l l' : List α}, l.Perm l' → ∀ b, l.foldl f b = l'.foldl f b := by
  intro l l' h
  induction h with
  | nil => intro b; rfl
  | cons x _ ih => intro b; simp only [List.foldl_cons]; exact ih _
  | swap x y l => intro b; simp only [List.foldl_cons]; rw [hf]
  | trans _ _ ih1 ih2 => intro b; rw [ih1 b, ih2 b]

theorem addListResult_right_comm (a x y : ListResult) :
    addListResult (addListResult a x) y = addListResult (addListResult a y) x := by
  simp only [addListResult, ListResult.mk.injEq]
  refine ⟨?_, ?_, ?_, ?_, ?_, ?_⟩
  any_goals omega
  exact Finset.union_right_comm _ _ _

theorem addFolderResult_right_comm (a x y : FolderResult) :
    addFolderResult (addFolderResult a x) y =
      addFolderResult (addFolderResult a y) x := by
  simp only [addFolderResult, FolderResult.mk.injEq]
  refine ⟨?_, ?_, ?_, ?_, ?_, ?_, ?_⟩
  any_goals omega
  exact Finset.union_right_comm _ _ _

theorem addSpaceResult_right_comm (a x y : SpaceResult) :
    addSpaceResult (addSpaceResult a x) y =
      addSpaceResult (addSpaceResult a y) x := by
  simp only [addSpaceResult, SpaceResult.mk.injEq]
  refine ⟨?_, ?_, ?_, ?_, ?_, ?_, ?_, ?_⟩
  any_goals omega
  exact Finset.union_right_comm _ _ _

/-- If every element maps to `.ok`, so does the collected list. -/
theorem collectResults_ok_of_all {α β : Type} (f : α → Except String β) :
    ∀ l : List α, (∀ x ∈ l, ∃ b, f x = .ok b) →
      ∃ bs, collectResults f l = .ok bs := by
  intro l
  induction l with
  | nil => intro _; exact ⟨[], rfl⟩
  | cons x xs ih =>
    intro h
    obtain ⟨b, hb⟩ := h x (List.mem_cons_self x xs)
    obtain ⟨bs, hbs⟩ := ih (fun y hy => h y (List.mem_cons_of_mem x hy))
    exact ⟨b :: bs, by simp [collectResults, hb, hbs, exbind_ok]⟩

/-- If the first failing element fails with message `m`, the collected
result is `.error m`. -/
theorem collectResults_error_first {α β : Type} (f : α → Except String β) :
    ∀ (l : List α) (n : Nat) (hn : n < l.length) (m : String),
      f (l.get ⟨n, hn⟩) = .error m →
      (∀ j (hj : j < n), ∃ b, f (l.get ⟨j, Nat.lt_trans hj hn⟩) = .ok b) →
      collectResults f l = .error m := by
  intro l
  induction l with
  | nil => intro n hn; exact absurd hn (Nat.not_lt_zero n)
  | cons x xs ih =>
    intro n hn m hfail hok
    cases n with
    | zero =>
      simp only [List.get] at hfail
      simp [collectResults, hfail, exbind_error]
    | succ k =>
      obtain ⟨b, hb⟩ := hok 0 (Nat.succ_pos k)
      simp only [List.get] at hb hfail
      have hrest : collectResults f xs = .error m := by
        refine ih k (Nat.lt_of_succ_lt_succ hn) m hfail ?_
        intro j hj
        obtain ⟨c, hc⟩ := hok (j + 1) (Nat.succ_lt_succ hj)
        exact ⟨c, hc⟩
      simp [collectResults, hb, hrest, exbind_ok, exbind_error]

/-! ## C8: order-independence of the reduction -/

/-- Claim C8. The reduction is order-independent: at each hierarchy level,
permuting the order in which child results arrive leaves the accumulated
result (all counts and the custom-field set, hence every snapshot count
derived from them) unchanged. -/
theorem reduce_order_independent :
    (∀ (l l' : List SpaceResult), l.Perm l' → reduceSpaces l = reduceSpaces l') ∧
    (∀ (l l' : List FolderResult), l.Perm l' → reduceFolders l = reduceFolders l') ∧
    (∀ (l l' : List ListResult), l.Perm l' → reduceLists l = reduceLists l') := by
  refine ⟨fun l l' h => ?_, fun l l' h => ?_, fun l l' h => ?_⟩
  · exact foldl_perm_of_right_comm addSpaceResult addSpaceResult_right_comm h _
  · exact foldl_perm_of_right_comm addFolderResult addFolderResult_right_comm h _
  · exact foldl_perm_of_right_comm addListResult addListResult_right_comm h _

/-- Witness for C8 at concrete inputs: swapping two concrete space results
leaves the reduction unchanged. -/
theorem reduce_order_independent_witness :
    reduceSpaces [⟨1, 2, 3, 4, 5, 6, 7, ∅⟩, ⟨10, 0, 0, 0, 0, 0, 0, {JVal.str "a"}⟩] =
      reduceSpaces [⟨10, 0, 0, 0, 0, 0, 0, {JVal.str "a"}⟩, ⟨1, 2, 3, 4, 5, 6, 7, ∅⟩] :=
  reduce_order_independent.1 _ _ (List.Perm.swap _ _ _)

/-! ## C10: custom-field name selection -/

/-- Helper: the code's selection of line 251 computes exactly the
key-presence choice `customFieldNameSpec` on any dict entry. -/
theorem customFieldName_obj (kvs : List (String × JVal)) :
    customFieldName (JVal.obj kvs) = .ok (customFieldNameSpec kvs) := by
  cases hn : jlookup kvs "name" <;> cases hi : jlookup kvs "id" <;>
    simp [customFieldName, customFieldNameSpec, pyGetD, hn, hi, exbind_ok]

/-- Helper: adding a hashable value to the set succeeds and yields it. -/
theorem pySetAdd_ok_of_hashable (v : JVal) (h : hashableJVal v = true) :
    pySetAdd v = .ok v := by
  cases v <;> first | rfl | exact nomatch h

theorem hashable_of_setSafe (v : JVal) (h : setSafe v = true) :
    hashableJVal v = true := by
  cases v <;> first | rfl | exact nomatch h

/-- Helper: on dict entries whose chosen values are set-safe, the
collection loop succeeds and yields exactly the spec-selected values, one
per entry. -/
theorem collect_customFieldAdd_map (cfs : List (List (String × JVal)))
    (h : ∀ kvs ∈ cfs, setSafe (customFieldNameSpec kvs) = true) :
    collectResults customFieldAdd (cfs.map JVal.obj) =
      .ok (cfs.map customFieldNameSpec) := by
  induction cfs with
  | nil => rfl
  | cons kvs rest ih =>
    have h1 : customFieldAdd (JVal.obj kvs) = .ok (customFieldNameSpec kvs) := by
      simp [customFieldAdd, customFieldName_obj, exbind_ok,
        pySetAdd_ok_of_hashable _
          (hashable_of_setSafe _ (h kvs (List.mem_cons_self _ _)))]
    simp [collectResults, h1,
      ih (fun k hk => h k (List.mem_cons_of_mem _ hk)), exbind_ok]

/-- Claim C10, counterexample. An entry whose `"name"` key holds a list is
selected by key presence, but line 251 then raises
`TypeError: unhashable type` at `set.add` instead of contributing an
element — refuting the claim that every entry of every record contributes
one element to the set. -/
theorem customField_unhashable_counterexample :
    classifyTask (JVal.obj [("id", JVal.str "t"),
        ("custom_fields", JVal.arr [JVal.obj [("name", JVal.arr [])]])]) 0 =
      .error "TypeError: unhashable type: list" := by decide

/-- Claim C10, amended. The chosen value of each entry is selected by key
presence — `"name"`'s value when that key is present (even when it is
`null`), else `"id"`'s value when present, else `"Unknown"` — and when
every chosen value is hashable and set-safe (`null`, number or string;
lists and dicts make `set.add` raise, and booleans alias numbers under
CPython hashing), a task with such entries gets exactly the set of the
chosen values, one per entry. -/
theorem customFieldName_key_presence (kvs : List (String × JVal))
    (cfs : List (List (String × JVal))) (now : Int)
    (h : ∀ entry ∈ cfs, setSafe (customFieldNameSpec entry) = true) :
    customFieldName (JVal.obj kvs) = .ok (customFieldNameSpec kvs) ∧
    classifyTask (JVal.obj [("id", JVal.str "t"),
        ("custom_fields", JVal.arr (cfs.map JVal.obj))]) now =
      .ok ⟨false, false, false, true, (cfs.map customFieldNameSpec).toFinset⟩ := by
  constructor
  · exact customFieldName_obj kvs
  · simp [classifyTask, statusOf, overdueOf, customFieldsOf, pyGetD, jlookup,
      pyIndex, pyLower, pyIter, JVal.truthy, collect_customFieldAdd_map cfs h,
      exbind_ok, pyIn]
    decide

/-- Witness for C10 amended at a concrete input: a present-but-null
`"name"` wins over a present `"id"`, and the null lands in the set. -/
theorem customFieldName_key_presence_witness :
    customFieldName (JVal.obj [("name", JVal.null), ("id", JVal.str "f1")]) =
      .ok (customFieldNameSpec [("name", JVal.null), ("id", JVal.str "f1")]) ∧
    classifyTask (JVal.obj [("id", JVal.str "t"), ("custom_fields",
        JVal.arr (([[("name", JVal.null), ("id", JVal.str "f1")]]).map JVal.obj))]) 0 =
      .ok ⟨false, false, false, true,
        (([[("name", JVal.null), ("id", JVal.str "f1")]]).map
          customFieldNameSpec).toFinset⟩ :=
  customFieldName_key_presence [("name", JVal.null), ("id", JVal.str "f1")]
    [[("name", JVal.null), ("id", JVal.str "f1")]] 0 (by decide)

/-! ## C7: priority matching is case-sensitive in the code -/

/-- Claim C7, counterexample. A task whose priority is `"Urgent"` — which
matches `{"urgent","high"}` case-insensitively (`strLower` witnesses it) —
is classified with `highPriority = false`, refuting the claimed
case-insensitive match. -/
theorem highPriority_case_counterexample :
    classifyTask (JVal.obj [("id", JVal.str "t"),
        ("priority", JVal.str "Urgent")]) 0 =
      .ok ⟨false, false, false, true, ∅⟩ ∧
    strLower "Urgent" = "urgent" := by decide

/-- Claim C7, amended. The classifier marks a task `highPriority` iff its
priority value is exactly the lowercase string `"urgent"` or `"high"`
(case-sensitive equality; no normalisation is applied). -/
theorem highPriority_exact_match (p : JVal) (now : Int) :
    classifyTask (JVal.obj [("id", JVal.str "t"), ("priority", p)]) now =
      .ok ⟨false, false, pyIn p [JVal.str "urgent", JVal.str "high"],
           true, ∅⟩ ∧
    (pyIn p [JVal.str "urgent", JVal.str "high"] = true ↔
      (p = JVal.str "urgent" ∨ p = JVal.str "high")) := by
  constructor
  · rfl
  · simp [pyIn]

/-! ## C3: no retry / backoff exists -/

def teamsBody : JVal :=
  JVal.obj [("teams", JVal.arr
    [JVal.obj [("id", JVal.str "1"), ("name", JVal.str "Acme")]])]

def resp429 : HttpResp := ⟨429, .ok (JVal.obj [("err", JVal.str "limit")])⟩

def respOK : HttpResp := ⟨200, .ok teamsBody⟩

/-- Claim C3, counterexample. With a remote that answers 429 once and then
would answer 200 with data, `fetch_workspaces` returns `None` after
consuming exactly one response — the three responses a 3-retry client
would have used are left untouched — while a single 200 response does
yield the data.  There is no retry and no `Err(Transient)` value. -/
theorem no_retry_counterexample :
    fetch_workspaces "k" [resp429, respOK, respOK, respOK] =
      (none, [respOK, respOK, respOK]) ∧
    fetch_workspaces "k" [respOK] =
      (some [(JVal.str "1", JVal.str "Acme")], []) := by decide

/-- Claim C3, amended. The client never retries: a response with HTTP status
≥ 400 (429 and 5xx included) makes `fetch_workspaces` return `None`
immediately, and any call consumes at most one response from the remote
stream. -/
theorem no_retry_amended :
    (∀ (api_key : String) (r : HttpResp) (rest : List HttpResp),
       400 ≤ r.status → ¬api_key = "" →
       fetch_workspaces api_key (r :: rest) = (none, rest)) ∧
    (∀ (api_key : String) (stream : List HttpResp),
       stream.length ≤ (fetch_workspaces api_key stream).2.length + 1) := by
  constructor
  · intro api_key r rest h4 hk
    simp [fetch_workspaces, if_neg hk, if_pos h4, Except.toOption, throw,
      throwThe, MonadExceptOf.throw, exbind_error]
  · intro api_key stream
    by_cases hk : api_key = ""
    · simp [fetch_workspaces, if_pos hk]
    · cases stream with
      | nil => simp [fetch_workspaces, if_neg hk]
      | cons r rest => simp [fetch_workspaces, if_neg hk]

/-- Witness for C3 amended at a concrete input. -/
theorem no_retry_witness :
    fetch_workspaces "k" [resp429] = (none, []) :=
  no_retry_amended.1 "k" resp429 [] (by decide) (by decide)

/-! ## C4: no pagination exists -/

/-- The request a paginating client would issue for page 1 of the tasks
endpoint. -/
def tasksPageReq (list_id : String) (page : Nat) : Req :=
  ⟨(tasksReq list_id).url,
   (tasksReq list_id).params ++ [("page", toString page)]⟩

def wTwoPages : World :=
  { req := fun r =>
      if r = tasksReq "L" then
        .ok (JVal.obj [("tasks", JVal.arr [JVal.obj [("id", JVal.str "t1")]])])
      else if r = tasksPageReq "L" 1 then
        .ok (JVal.obj [("tasks", JVal.arr [JVal.obj [("id", JVal.str "t2")]])])
      else if r = tasksPageReq "L" 2 then
        .ok (JVal.obj [("tasks", JVal.arr [])])
      else .error "unexpected request",
    now := 0 }

/-- Claim C4, counterexample. Against a remote whose tasks endpoint has a
non-empty page 1 (and an empty page 2), `fetch_list_details` reports
`task_count = 1`: only page 0 is ever requested, so the count misses the
second page's task. -/
theorem no_pagination_counterexample :
    fetch_list_details wTwoPages "k" "L" = .ok ⟨1, 0, 0, 0, 1, ∅⟩ ∧
    wTwoPages.req (tasksPageReq "L" 1) =
      .ok (JVal.obj [("tasks", JVal.arr [JVal.obj [("id", JVal.str "t2")]])]) := by
  decide

/-- Claim C4, amended. Each per-list fetch issues a single request (page 0,
with only the fixed `archived`/`subtasks` params): the result of
`fetch_list_details` depends only on the response to that one request and
on the clock, never on any further page. -/
theorem fetch_list_single_request (w w' : World) (api_key list_id : String)
    (hreq : w.req (tasksReq list_id) = w'.req (tasksReq list_id))
    (hnow : w.now = w'.now) :
    fetch_list_details w api_key list_id =
      fetch_list_details w' api_key list_id := by
  unfold fetch_list_details
  simp only [hreq, hnow]

def wOnePage : World :=
  { req := fun r =>
      if r = tasksReq "L" then
        .ok (JVal.obj [("tasks", JVal.arr [JVal.obj [("id", JVal.str "t1")]])])
      else .error "no such page",
    now := 0 }

/-- Witness for C4 amended: two remotes agreeing only on page 0 of list
`L` produce identical list results. -/
theorem fetch_list_single_request_witness :
    fetch_list_details wTwoPages "k" "L" = fetch_list_details wOnePage "k" "L" :=
  fetch_list_single_request wTwoPages wOnePage "k" "L" (by decide) rfl

/-! ## C9: the aggregator is cached, not fresh per invocation -/

def wEmptyWs : World :=
  { req := fun r =>
      if r = spacesReq "T" then .ok (JVal.obj [("spaces", JVal.arr [])])
      else .error "unexpected request",
    now := 0 }

def wOneSpaceWs : World :=
  { req := fun r =>
      if r = spacesReq "T" then
        .ok (JVal.obj [("spaces", JVal.arr [JVal.obj [("id", JVal.str "S")]])])
      else if r = foldersReq "S" then
        .ok (JVal.obj [("folders", JVal.arr [])])
      else .error "unexpected request",
    now := 0 }

/-- Claim C9, counterexample. First invocation runs against a remote with no
spaces; the remote then changes to have one space.  The second invocation
with the same arguments returns the stored zero-space snapshot — not the
one-space snapshot a fresh fetch (third conjunct) produces — so successive
invocations do not re-fetch. -/
theorem cache_returns_stored_counterexample :
    (cached_fetch_workspace_details [] wEmptyWs "k" "T").1 =
      .ok [("🪐 Spaces", 0), ("📂 Folders", 0), ("🗂️ Lists", 0),
           ("📝 Total Tasks", 0), ("⚠️ Overdue Tasks", 0),
           ("🔥 High Priority Tasks", 0), ("📝 Unassigned Tasks", 0),
           ("🛠️ Custom Fields Used", 0)] ∧
    (cached_fetch_workspace_details
        (cached_fetch_workspace_details [] wEmptyWs "k" "T").2
        wOneSpaceWs "k" "T").1 =
      .ok [("🪐 Spaces", 0), ("📂 Folders", 0), ("🗂️ Lists", 0),
           ("📝 Total Tasks", 0), ("⚠️ Overdue Tasks", 0),
           ("🔥 High Priority Tasks", 0), ("📝 Unassigned Tasks", 0),
           ("🛠️ Custom Fields Used", 0)] ∧
    fetch_workspace_details wOneSpaceWs "k" "T" =
      .ok [("🪐 Spaces", 1), ("📂 Folders", 0), ("🗂️ Lists", 0),
           ("📝 Total Tasks", 0), ("⚠️ Overdue Tasks", 0),
           ("🔥 High Priority Tasks", 0), ("📝 Unassigned Tasks", 0),
           ("🛠️ Custom Fields Used", 0)] := by decide

/-- Claim C9, amended. `fetch_workspace_details` (like `fetch_workspaces`) is
wrapped in `st.cache_data`: an invocation whose `(api_key, team_id)`
arguments hit the cache returns the stored result unchanged and performs
no fetch at all — the current remote state `w` is ignored and the cache is
left as it was. -/
theorem cache_hit_skips_fetch (cache : WsCache) (w : World)
    (api_key team_id : String) (r : Except String WsDict)
    (h : cache.lookup (api_key, team_id) = some r) :
    cached_fetch_workspace_details cache w api_key team_id = (r, cache) := by
  unfold cached_fetch_workspace_details
  rw [h]

/-- Witness for C9 amended at a concrete cache. -/
theorem cache_hit_skips_fetch_witness :
    cached_fetch_workspace_details [(("k", "T"), .ok [("🪐 Spaces", 7)])]
      wEmptyWs "k" "T" =
      (.ok [("🪐 Spaces", 7)], [(("k", "T"), .ok [("🪐 Spaces", 7)])]) :=
  cache_hit_skips_fetch _ wEmptyWs "k" "T" _ (by decide)

/-! ## C6: the classifier is not total over arbitrary record shapes -/

/-- A custom-field entry on which line 251 cannot raise: a dict whose
chosen value (name, else id, else `"Unknown"`) is hashable — a list- or
dict-valued name/id makes `set.add` raise `TypeError`. -/
def customFieldEntryOk : JVal → Bool
  | .obj kvs => hashableJVal (customFieldNameSpec kvs)
  | _ => false

/-- The record shapes on which the classification loop cannot raise: the
record is an object carrying an `"id"` key; its `"status"`, if present, is
an object whose `"type"`, if present, is a string; its `"due_date"`, if
present and truthy, is accepted by `int()`; and its `"custom_fields"`, if
present, is an array of objects whose chosen name/id values are hashable.
Missing fields are allowed (treated as absent). -/
def wellShapedTask (t : JVal) : Bool :=
  match t with
  | .obj kvs =>
    (jlookup kvs "id").isSome &&
    (match jlookup kvs "status" with
     | none => true
     | some (.obj s) =>
       (match jlookup s "type" with
        | none => true
        | some (.str _) => true
        | some _ => false)
     | some _ => false) &&
    (match jlookup kvs "due_date" with
     | none => true
     | some v => !v.truthy ||
         (match pyInt v with | .ok _ => true | .error _ => false)) &&
    (match jlookup kvs "custom_fields" with
     | none => true
     | some (.arr cfs) => cfs.all customFieldEntryOk
     | some _ => false)
  | _ => false

theorem pyGetD_obj (kvs : List (String × JVal)) (k : String) (d : JVal) :
    pyGetD (JVal.obj kvs) k d = .ok ((jlookup kvs k).getD d) := by
  cases h : jlookup kvs k <;> simp [pyGetD, h]

theorem customFieldAdd_ok_of_entryOk :
    ∀ cf : JVal, customFieldEntryOk cf = true → ∃ v, customFieldAdd cf = .ok v
  | .null, h => nomatch h
  | .bool _, h => nomatch h
  | .num _, h => nomatch h
  | .str _, h => nomatch h
  | .arr _, h => nomatch h
  | .obj kvs, h =>
    ⟨customFieldNameSpec kvs, by
      simp [customFieldAdd, customFieldName_obj, exbind_ok,
        pySetAdd_ok_of_hashable _ h]⟩

theorem statusOf_ok (kvs : List (String × JVal))
    (h : (match jlookup kvs "status" with
          | none => true
          | some (.obj s) =>
            (match jlookup s "type" with
             | none => true
             | some (.str _) => true
             | some _ => false)
          | some _ => false) = true) :
    ∃ st, statusOf (JVal.obj kvs) = .ok st := by
  cases hs : jlookup kvs "status" with
  | none =>
    exact ⟨strLower "", by simp [statusOf, pyGetD_obj, hs, pyGetD, jlookup,
      pyLower, exbind_ok]⟩
  | some sv =>
    rw [hs] at h
    cases sv with
    | obj s =>
      dsimp only at h
      cases ht : jlookup s "type" with
      | none =>
        exact ⟨strLower "", by simp [statusOf, pyGetD_obj, hs, ht, pyLower,
          exbind_ok]⟩
      | some tv =>
        rw [ht] at h
        cases tv with
        | str x =>
          exact ⟨strLower x, by simp [statusOf, pyGetD_obj, hs, ht, pyLower,
            exbind_ok]⟩
        | null => simp at h
        | bool b => simp at h
        | num n => simp at h
        | arr xs => simp at h
        | obj o => simp at h
    | null => simp at h
    | bool b => simp at h
    | num n => simp at h
    | str x => simp at h
    | arr xs => simp at h

theorem overdueOf_ok (kvs : List (String × JVal)) (now : Int)
    (h : (match jlookup kvs "due_date" with
          | none => true
          | some v => !v.truthy ||
              (match pyInt v with | .ok _ => true | .error _ => false)) = true) :
    ∃ b, overdueOf (JVal.obj kvs) now = .ok b := by
  cases hd : jlookup kvs "due_date" with
  | none =>
    exact ⟨false, by simp [overdueOf, pyGetD_obj, hd, JVal.truthy, pure,
      Except.pure, exbind_ok]⟩
  | some v =>
    rw [hd] at h
    dsimp only at h
    by_cases htr : v.truthy = true
    · have hint : ∃ d, pyInt v = .ok d := by
        cases hi : pyInt v with
        | ok d => exact ⟨d, rfl⟩
        | error e => rw [hi] at h; simp [htr] at h
      obtain ⟨d, hdint⟩ := hint
      exact ⟨decide (d < now), by simp [overdueOf, pyGetD_obj, hd, htr,
        hdint, exbind_ok, pure, Except.pure]⟩
    · exact ⟨false, by simp [overdueOf, pyGetD_obj, hd, htr, pure,
        Except.pure, exbind_ok]⟩

theorem customFieldsOf_ok (kvs : List (String × JVal))
    (h : (match jlookup kvs "custom_fields" with
          | none => true
          | some (.arr cfs) => cfs.all customFieldEntryOk
          | some _ => false) = true) :
    ∃ names, customFieldsOf (JVal.obj kvs) = .ok names := by
  cases hc : jlookup kvs "custom_fields" with
  | none =>
    exact ⟨[], by simp [customFieldsOf, pyGetD_obj, hc, pyIter, exbind_ok,
      collectResults]⟩
  | some v =>
    rw [hc] at h
    cases v with
    | arr cfs =>
      dsimp only at h
      have hall : ∀ cf ∈ cfs, ∃ w, customFieldAdd cf = .ok w := by
        intro cf hcf
        exact customFieldAdd_ok_of_entryOk cf (List.all_eq_true.mp h cf hcf)
      obtain ⟨names, hnames⟩ := collectResults_ok_of_all customFieldAdd cfs hall
      exact ⟨names, by simp [customFieldsOf, pyGetD_obj, hc, pyIter, hnames,
        exbind_ok]⟩
    | null => simp at h
    | bool b => simp at h
    | num n => simp at h
    | str s => simp at h
    | obj o => simp at h

/-- Claim C6, amended. The classification loop body never raises on a record
that is an object with an `"id"` key whose present fields have the shapes
the code expects (`wellShapedTask`): missing `status`, `due_date`,
`priority`, `assignees` and `custom_fields` keys are all treated as
absent, each custom-field entry is a dict whose chosen name/id value is
hashable, and classification returns a result.  (The counterexample
theorem shows it does raise outside these shapes, e.g. on a record with no
`"id"`; a list-valued custom-field name raises `TypeError` at `set.add`,
see the C10 counterexample.) -/
theorem classify_total_on_wellShaped :
    ∀ (t : JVal) (now : Int), wellShapedTask t = true →
      ∃ f, classifyTask t now = .ok f
  | .null, _, h => nomatch h
  | .bool _, _, h => nomatch h
  | .num _, _, h => nomatch h
  | .str _, _, h => nomatch h
  | .arr _, _, h => nomatch h
  | .obj kvs, now, h => by
    simp only [wellShapedTask, Bool.and_eq_true] at h
    obtain ⟨⟨⟨hid, hstatus⟩, hdue⟩, hcf⟩ := h
    obtain ⟨idv, hidv⟩ := Option.isSome_iff_exists.mp hid
    have hidx : pyIndex (JVal.obj kvs) "id" = .ok idv := by
      simp [pyIndex, hidv]
    obtain ⟨st, hst⟩ := statusOf_ok kvs hstatus
    obtain ⟨ov, hov⟩ := overdueOf_ok kvs now hdue
    obtain ⟨names, hnames⟩ := customFieldsOf_ok kvs hcf
    exact ⟨⟨decide (st = "closed") || (decide (st = "done") ||
        decide (st = "completed")), ov,
      pyIn ((jlookup kvs "priority").getD (JVal.str ""))
        [JVal.str "urgent", JVal.str "high"],
      !((jlookup kvs "assignees").getD JVal.null).truthy, names.toFinset⟩,
      by simp [classifyTask, hst, hidx, hov, hnames, pyGetD_obj, exbind_ok]⟩

/-- Witness for C6 amended: a record with only an `"id"` field is
classified, every other field defaulting to absent. -/
theorem classify_total_witness :
    (classifyTask (JVal.obj [("id", JVal.str "1")]) 0).toOption.isSome = true := by
  obtain ⟨f, hf⟩ :=
    classify_total_on_wellShaped (JVal.obj [("id", JVal.str "1")]) 0 (by decide)
  rw [hf]
  rfl

/-- Claim C6, counterexample. Classification is not total: the empty record
`{}` (every field missing) raises `KeyError` at the logging line that
evaluates `task["id"]`, and a record whose `status` field is a string
rather than an object raises `AttributeError` — refuting "never raises,
missing fields treated as absent" for arbitrary shapes. -/
theorem classify_raises_counterexample :
    classifyTask (JVal.obj []) 0 = .error "KeyError: id" ∧
    classifyTask (JVal.obj [("id", JVal.str "t"),
        ("status", JVal.str "weird")]) 0 =
      .error "AttributeError: get on type" ∧
    classifyTask (JVal.obj [("id", JVal.str "t"),
        ("due_date", JVal.str "soon")]) 0 =
      .error "ValueError: int of soon" := by decide

/-! ## C1: any per-node failure aborts the whole traversal -/

def wSpaceFail : World :=
  { req := fun r =>
      if r = spacesReq "T" then
        .ok (JVal.obj [("spaces", JVal.arr [JVal.obj [("id", JVal.str "S1")]])])
      else .error "boom",
    now := 0 }

def wListFail : World :=
  { req := fun r =>
      if r = spacesReq "T" then
        .ok (JVal.obj [("spaces", JVal.arr [JVal.obj [("id", JVal.str "S")]])])
      else if r = foldersReq "S" then
        .ok (JVal.obj [("folders", JVal.arr [JVal.obj [("id", JVal.str "F")]])])
      else if r = listsReq "F" then
        .ok (JVal.obj [("lists", JVal.arr [JVal.obj [("id", JVal.str "L")]])])
      else if r = tasksReq "L" then .error "connection reset"
      else .error "unexpected request",
    now := 0 }

/-- Claim C1, counterexample. The root team fetch succeeds (first conjunct),
a single list-level task fetch fails, and the aggregator returns a
top-level error value — no snapshot, and no errors sequence exists
anywhere in the return type — refuting "per-node failures are collected
and the snapshot is still returned". -/
theorem per_node_failure_counterexample :
    wListFail.req (spacesReq "T") =
      .ok (JVal.obj [("spaces", JVal.arr [JVal.obj [("id", JVal.str "S")]])]) ∧
    fetch_workspace_details wListFail "k" "T" =
      .error "Exception: connection reset" := by decide

/-- Claim C1, amended. A failure of any non-root fetch aborts the whole
traversal: if the root spaces fetch succeeds and the sub-traversal of some
space fails (all spaces dispatched before it succeeding), then
`fetch_workspace_details` returns the top-level error
`"Exception: <message>"` instead of a snapshot.  Per-node errors are never
collected — the snapshot type has no errors field. -/
theorem per_node_failure_aborts (w : World) (api_key team_id : String)
    (spaces ids : List JVal) (n : Nat) (m : String)
    (hroot : w.req (spacesReq team_id) =
      .ok (JVal.obj [("spaces", JVal.arr spaces)]))
    (hids : collectResults (fun sp => pyIndex sp "id") spaces = .ok ids)
    (hn : n < ids.length)
    (hfail : fetch_space_details w api_key (pyStr (ids.get ⟨n, hn⟩)) =
      .error m)
    (hok : ∀ j (hj : j < n), ∃ r,
      fetch_space_details w api_key
        (pyStr (ids.get ⟨j, Nat.lt_trans hj hn⟩)) = .ok r) :
    fetch_workspace_details w api_key team_id =
      .error ("Exception: " ++ m) := by
  have hcol : collectResults
      (fun i => fetch_space_details w api_key (pyStr i)) ids = .error m :=
    collectResults_error_first _ ids n hn m hfail hok
  unfold fetch_workspace_details fetch_workspace_details_core
  rw [hroot]
  simp [pyGetD, jlookup, pyLen, pyIter, hids, hcol, exbind_ok, exbind_error]

/-- Witness for C1 amended: a concrete world where the single space's
folder fetch raises `"boom"`. -/
theorem per_node_failure_aborts_witness :
    fetch_workspace_details wSpaceFail "k" "T" = .error "Exception: boom" :=
  per_node_failure_aborts wSpaceFail "k" "T"
    [JVal.obj [("id", JVal.str "S1")]] [JVal.str "S1"] 0 "boom"
    (by decide) (by decide) (by decide) (by decide)
    (fun j hj => absurd hj (Nat.not_lt_zero j))

/-! ## C2: the completion rate is computed but not part of the snapshot -/

def wAllOk : World :=
  { req := fun r =>
      if r = spacesReq "T" then
        .ok (JVal.obj [("spaces", JVal.arr [JVal.obj [("id", JVal.str "S")]])])
      else if r = foldersReq "S" then
        .ok (JVal.obj [("folders", JVal.arr [JVal.obj [("id", JVal.str "F")]])])
      else if r = listsReq "F" then
        .ok (JVal.obj [("lists", JVal.arr [JVal.obj [("id", JVal.str "L")]])])
      else if r = tasksReq "L" then
        .ok (JVal.obj [("tasks", JVal.arr
          [JVal.obj [("id", JVal.str "t1"),
                     ("status", JVal.obj [("type", JVal.str "done")])]])])
      else .error "unexpected request",
    now := 0 }

/-- Claim C2. On a fully successful traversal with one task, completed, the
returned snapshot consists of exactly the eight keys below: it contains no
completion-rate field (and no completed-task count) at all, although the
code does compute the unrounded rate — here `100` — into a local variable
it then drops.  The claimed `completionRatePercent` field does not exist. -/
theorem completion_rate_not_in_snapshot :
    fetch_workspace_details wAllOk "k" "T" =
      .ok [("🪐 Spaces", 1), ("📂 Folders", 1), ("🗂️ Lists", 1),
           ("📝 Total Tasks", 1), ("⚠️ Overdue Tasks", 0),
           ("🔥 High Priority Tasks", 0), ("📝 Unassigned Tasks", 1),
           ("🛠️ Custom Fields Used", 0)] ∧
    task_completion_rate 1 1 = 100 := by
  constructor
  · decide
  · norm_num [task_completion_rate]
